import Mathlib

/-!
Verification of the data-transformation core of the medical-appointments
dashboard (src/dashboard/app.py and src/dashboard/demo_insights.py).

Modelling conventions for the shallow embedding:
* A pandas dataframe is a `List` of row records; row selection is `List.filter`
  and row-wise derived columns are fields computed per record.
* Calendar dates are integers counting whole days from an epoch chosen to fall
  on a Monday, so the pandas `dt.dayofweek` value (Monday = 0 .. Sunday = 6) of
  a date `d` is `d % 7` (integer `emod`, always in `[0, 6]`), and the timedelta
  `.dt.days` of `AppointmentDay - ScheduledDay` is plain integer subtraction.
* Float values that can be NaN are modelled as `Option ℚ` with `none` for NaN.
  numpy scalar division by a zero denominator produces NaN (with a runtime
  warning), not an exception, so division is `Option`-valued (`npDiv`), and the
  pandas mean of an empty series is `none` (`meanQ`).
* A raw CSV cell that may be missing (NaN) is `Option`-valued in `RawRecord`;
  `df.dropna()` keeps exactly the rows whose cells, including the derived
  `AgeGroup` cell produced by `pd.cut`, are all present (`cleanRow`).
* `pandas` stable sorts (`sort_values` on an ordered categorical, `nlargest`
  with its default tie rule keeping earlier rows) are `List.insertionSort`,
  which is a stable sort, with the corresponding key order.
* `groupby` is modelled as: list the distinct keys, then aggregate the rows of
  each key with `List.filter`.  pandas orders the group keys lexicographically;
  the embedding keeps first-occurrence order (`firstOccur`) because every
  aggregation verified here either re-sorts its output by an explicit key
  (day order, appointment volume) or is consumed unordered, so the initial
  key order is immaterial to the verified statements.
-/

/-- Python `str.title()`: the first character of every alphabetic run is
upper-cased and all later characters of the run are lower-cased; the boolean
argument records whether the previous character was alphabetic. -/
def pyTitleAux : Bool → List Char → List Char
  | _, [] => []
  | prevAlpha, c :: cs =>
    (if c.isAlpha then (if prevAlpha then c.toLower else c.toUpper) else c)
      :: pyTitleAux c.isAlpha cs

/-- Python `str.title()` on a string. -/
def pyTitle (s : String) : String := String.mk (pyTitleAux false s.data)

/-- Drop leading whitespace characters. -/
def pyStripLeft : List Char → List Char
  | [] => []
  | c :: cs => if c.isWhitespace then pyStripLeft cs else c :: cs

/-- Python `str.strip()`: drop leading and trailing whitespace. -/
def pyStrip (s : String) : String :=
  String.mk ((pyStripLeft (pyStripLeft s.data).reverse).reverse)

/-- `df['Neighbourhood'].str.strip().str.title()` (app.py line 59). -/
def normalizeNeighbourhood (s : String) : String := pyTitle (pyStrip s)

/-- The `day_names` mapping of app.py lines 45-46 applied to `dt.dayofweek`;
the argument is always `d % 7 ∈ [0, 6]` for an appointment date `d`. -/
def dayNames (w : ℤ) : String :=
  if w = 0 then "Monday"
  else if w = 1 then "Tuesday"
  else if w = 2 then "Wednesday"
  else if w = 3 then "Thursday"
  else if w = 4 then "Friday"
  else if w = 5 then "Saturday"
  else "Sunday"

/-- `day_order` of app.py line 201: the canonical weekday order. -/
def dayOrder : List String :=
  ["Monday", "Tuesday", "Wednesday", "Thursday", "Friday", "Saturday", "Sunday"]

/-- Position of a day name in the ordered categorical
`pd.Categorical(..., categories=day_order, ordered=True)` of app.py line 202;
a value outside the categories becomes NaN, which pandas sorts last, hence
index 7. -/
def dayIndexOf (d : String) : ℕ :=
  if d = "Monday" then 0
  else if d = "Tuesday" then 1
  else if d = "Wednesday" then 2
  else if d = "Thursday" then 3
  else if d = "Friday" then 4
  else if d = "Saturday" then 5
  else if d = "Sunday" then 6
  else 7

/-- `age_labels` of app.py line 52. -/
def ageLabels : List String :=
  ["Children (0-17)", "Young Adults (18-35)", "Middle-aged (36-55)", "Seniors (56+)"]

/-- `pd.cut(df['Age'], bins=[0, 18, 36, 56, 120], labels=age_labels, right=False)`
(app.py lines 51-53): half-open bins `[0,18)`, `[18,36)`, `[36,56)`, `[56,120)`;
a value on no bin (negative, or `≥ 120` — including exactly 120, since
`right=False` excludes the rightmost edge) becomes NaN (`none`). -/
def ageGroupOfAge (a : ℤ) : Option String :=
  if 0 ≤ a ∧ a < 18 then some "Children (0-17)"
  else if 18 ≤ a ∧ a < 36 then some "Young Adults (18-35)"
  else if 36 ≤ a ∧ a < 56 then some "Middle-aged (36-55)"
  else if 56 ≤ a ∧ a < 120 then some "Seniors (56+)"
  else none

/-- One raw CSV row (the fixed column set of the dataset); `none` is a missing
cell. -/
structure RawRecord where
  patientId : Option ℤ
  appointmentID : Option ℤ
  gender : Option String
  scheduledDay : Option ℤ
  appointmentDay : Option ℤ
  age : Option ℤ
  neighbourhood : Option String
  scholarship : Option ℤ
  hipertension : Option ℤ
  diabetes : Option ℤ
  alcoholism : Option ℤ
  handcap : Option ℤ
  smsReceived : Option ℤ
  noShow : Option String
  deriving DecidableEq

/-- One row of the cleaned table produced by `load_and_clean_data`, with the
derived columns of app.py lines 39-59. -/
structure Record where
  patientId : ℤ
  appointmentID : ℤ
  gender : String
  scheduledDay : ℤ
  appointmentDay : ℤ
  age : ℤ
  neighbourhood : String
  scholarship : ℤ
  hipertension : ℤ
  diabetes : ℤ
  alcoholism : ℤ
  handcap : ℤ
  smsReceived : ℤ
  noShow : String
  daysWaiting : ℤ
  dayOfWeek : ℤ
  dayOfWeekName : String
  ageGroup : String
  noShowBinary : ℤ
  deriving DecidableEq

/-- Row-wise part of `load_and_clean_data` (app.py lines 34-62): derive
`DaysWaiting`, `DayOfWeek`, `DayOfWeekName`, `AgeGroup`, `NoShow_Binary`,
normalize `Neighbourhood`, then `dropna()` — the row survives exactly when
every original cell and the derived `AgeGroup` cell are present.
(`NoShow_Binary` and `DayOfWeekName` cannot themselves be NaN when their
source cells are present.) -/
def cleanRow (raw : RawRecord) : Option Record := do
  let pid ← raw.patientId
  let aid ← raw.appointmentID
  let g ← raw.gender
  let sd ← raw.scheduledDay
  let ad ← raw.appointmentDay
  let a ← raw.age
  let nb ← raw.neighbourhood
  let sch ← raw.scholarship
  let hyp ← raw.hipertension
  let dia ← raw.diabetes
  let alc ← raw.alcoholism
  let hc ← raw.handcap
  let sms ← raw.smsReceived
  let ns ← raw.noShow
  let ag ← ageGroupOfAge a
  some
    { patientId := pid
      appointmentID := aid
      gender := g
      scheduledDay := sd
      appointmentDay := ad
      age := a
      neighbourhood := normalizeNeighbourhood nb
      scholarship := sch
      hipertension := hyp
      diabetes := dia
      alcoholism := alc
      handcap := hc
      smsReceived := sms
      noShow := ns
      daysWaiting := ad - sd
      dayOfWeek := ad % 7
      dayOfWeekName := dayNames (ad % 7)
      ageGroup := ag
      noShowBinary := if ns = "Yes" then 1 else 0 }

/-- `load_and_clean_data` (app.py lines 16-70): derive columns and `dropna()`
row-wise, then drop rows with `DaysWaiting < 0` (line 65) and rows with `Age`
outside `[0, 120]` (line 68). -/
def loadAndCleanData (rows : List RawRecord) : List Record :=
  ((rows.filterMap cleanRow).filter
      (fun r => decide (0 ≤ r.daysWaiting))).filter
    (fun r => decide (0 ≤ r.age ∧ r.age ≤ 120))

/-- pandas `Series.mean()`: NaN (`none`) on an empty series, otherwise the
arithmetic mean. -/
def meanQ (xs : List ℚ) : Option ℚ :=
  if xs.length = 0 then none else some (xs.sum / (xs.length : ℚ))

/-- numpy scalar true division: a zero denominator yields NaN/inf (`none`, with
a runtime warning), not an exception. -/
def npDiv (a b : ℚ) : Option ℚ := if b = 0 then none else some (a / b)

/-- Distinct values of a column in order of first occurrence; used as the key
list of a `groupby`. -/
def firstOccur : List String → List String
  | [] => []
  | x :: xs => x :: (firstOccur xs).filter (fun y => decide (y ≠ x))

/-- Counts per distinct value, sorted by count descending (pandas
`value_counts()`, app.py line 91). -/
def valueCounts (xs : List String) : List (String × ℕ) :=
  List.insertionSort (fun a b : String × ℕ => b.2 ≤ a.2)
    ((firstOccur xs).map (fun g => (g, xs.count g)))

/-- The `conditions` list of `calculate_summary_statistics` (app.py line 94). -/
def summaryConditions : List String := ["Hipertension", "Diabetes", "Alcoholism"]

/-- Column lookup for the four 0/1 condition columns used by the condition
aggregations; only these four names are ever passed. -/
def conditionValue (c : String) (r : Record) : ℤ :=
  if c = "Hipertension" then r.hipertension
  else if c = "Diabetes" then r.diabetes
  else if c = "Alcoholism" then r.alcoholism
  else r.handcap

/-- The dictionary returned by `calculate_summary_statistics`. -/
structure SummaryStats where
  totalAppointments : ℕ
  showRate : Option ℚ
  noShowRate : Option ℚ
  avgAge : Option ℚ
  avgWaitingDays : Option ℚ
  genderCounts : List (String × ℕ)
  conditionStats : List (String × Option ℚ)
  deriving DecidableEq

/-- `calculate_summary_statistics` (app.py lines 72-107). -/
def calculateSummaryStatistics (df : List Record) : SummaryStats :=
  let total := df.length
  let noShows : ℤ := (df.map (fun r => r.noShowBinary)).sum
  { totalAppointments := total
    showRate :=
      (npDiv ((total : ℚ) - (noShows : ℚ)) (total : ℚ)).map (fun x => x * 100)
    noShowRate := (npDiv (noShows : ℚ) (total : ℚ)).map (fun x => x * 100)
    avgAge := meanQ (df.map (fun r => (r.age : ℚ)))
    avgWaitingDays := meanQ (df.map (fun r => (r.daysWaiting : ℚ)))
    genderCounts := valueCounts (df.map (fun r => r.gender))
    conditionStats := summaryConditions.map (fun c =>
      (c, (npDiv ((df.map (fun r => (conditionValue c r : ℚ))).sum)
            (df.length : ℚ)).map (fun x => x * 100))) }

/-- One row of the `day_stats` frame of `create_day_of_week_analysis`
(app.py lines 191-198). -/
structure DayStats where
  dayOfWeek : String
  totalAppointments : ℕ
  noShows : ℤ
  noShowRate : Option ℚ
  deriving DecidableEq

/-- Aggregates of one `DayOfWeekName` group: row count, sum and mean (as a
percentage) of `NoShow_Binary`. -/
def dayGroupStats (df : List Record) (d : String) : DayStats :=
  let grp := df.filter (fun r => decide (r.dayOfWeekName = d))
  { dayOfWeek := d
    totalAppointments := grp.length
    noShows := (grp.map (fun r => r.noShowBinary)).sum
    noShowRate := (meanQ (grp.map (fun r => (r.noShowBinary : ℚ)))).map
      (fun x => x * 100) }

/-- The data transform of `create_day_of_week_analysis` (app.py lines 191-203):
group by `DayOfWeekName`, then sort stably by the ordered categorical whose
categories are `day_order` (Monday first, Sunday last). -/
def createDayOfWeekStats (df : List Record) : List DayStats :=
  List.insertionSort
    (fun a b : DayStats => dayIndexOf a.dayOfWeek ≤ dayIndexOf b.dayOfWeek)
    ((firstOccur (df.map (fun r => r.dayOfWeekName))).map (dayGroupStats df))

/-- pandas `Series.quantile(q)` with the default linear interpolation:
on the ascending sort `s` of the values, the quantile sits at position
`pos = q * (n - 1)`; with `i = ⌊pos⌋` and `g = pos - i` it is
`s[i] + g * (s[i+1] - s[i])` (and `s[i]` when `i` is the last index).
NaN (`none`) on an empty series.  `pos ≥ 0` always holds since `q ∈ [0, 1]`,
so `⌊pos⌋` is the natural-number floor `pos.num.toNat / pos.den`. -/
def quantileLinear (q : ℚ) (vals : List ℚ) : Option ℚ :=
  let s := List.insertionSort (fun a b : ℚ => a ≤ b) vals
  if s.length = 0 then none
  else
    let pos : ℚ := q * ((s.length : ℚ) - 1)
    let i : ℕ := pos.num.toNat / pos.den
    let g : ℚ := pos - (i : ℚ)
    let lo := s.getD i 0
    let hi := s.getD (i + 1) lo
    some (lo + g * (hi - lo))

/-- `df['DaysWaiting'].quantile(0.95)` (app.py line 242). -/
def daysWaitingQuantile95 (df : List Record) : Option ℚ :=
  quantileLinear (19 / 20) (df.map (fun r => (r.daysWaiting : ℚ)))

/-- The input restriction of `create_waiting_time_analysis` (app.py lines
242-243): keep the rows whose `DaysWaiting` is at most the 95th percentile of
the `DaysWaiting` column of the table passed in.  When the table is empty the
threshold is NaN and `DaysWaiting <= NaN` holds of no row, so the result is
empty. -/
def createWaitingTimeInput (df : List Record) : List Record :=
  match daysWaitingQuantile95 df with
  | none => []
  | some q => df.filter (fun r => decide ((r.daysWaiting : ℚ) ≤ q))

/-- The `conditions` list of `create_medical_conditions_analysis`
(app.py line 278). -/
def chartConditions : List String :=
  ["Hipertension", "Diabetes", "Alcoholism", "Handcap"]

/-- `df[df[condition] == 1]['NoShow_Binary'].mean() * 100` (app.py line 285):
NaN (`none`) when no patient has the condition. -/
def withConditionRate (df : List Record) (c : String) : Option ℚ :=
  (meanQ ((df.filter (fun r => decide (conditionValue c r = 1))).map
      (fun r => (r.noShowBinary : ℚ)))).map (fun x => x * 100)

/-- `df[df[condition] == 0]['NoShow_Binary'].mean() * 100` (app.py line 287):
NaN (`none`) when every patient has the condition. -/
def withoutConditionRate (df : List Record) (c : String) : Option ℚ :=
  (meanQ ((df.filter (fun r => decide (conditionValue c r = 0))).map
      (fun r => (r.noShowBinary : ℚ)))).map (fun x => x * 100)

/-- One row of the `condition_df` frame of
`create_medical_conditions_analysis` (app.py lines 289-294). -/
structure ConditionStats where
  condition : String
  group : String
  noShowRate : Option ℚ
  deriving DecidableEq

/-- The data transform of `create_medical_conditions_analysis` (app.py lines
277-294): two rows per condition, for patients with and without it. -/
def createMedicalConditionsStats (df : List Record) : List ConditionStats :=
  chartConditions.flatMap (fun c =>
    [{ condition := c, group := "With Condition",
       noShowRate := withConditionRate df c },
     { condition := c, group := "Without Condition",
       noShowRate := withoutConditionRate df c }])

/-- One row of the `neighborhood_stats` frame of
`create_neighborhood_analysis` (app.py lines 331-337). -/
structure NeighbourhoodStats where
  neighbourhood : String
  totalAppointments : ℕ
  noShowRate : Option ℚ
  deriving DecidableEq

/-- The data transform of `create_neighborhood_analysis` (app.py lines
319-340): group by `Neighbourhood` (count and no-show rate per group), then
`nlargest(top_n, 'TotalAppointments')` — the stable descending sort by
appointment volume (ties keep the earlier row, pandas `keep='first'`)
truncated to the first `top_n` rows. -/
def createNeighborhoodStats (df : List Record) (topN : ℕ) :
    List NeighbourhoodStats :=
  let stats := (firstOccur (df.map (fun r => r.neighbourhood))).map (fun nb =>
    let grp := df.filter (fun r => decide (r.neighbourhood = nb))
    { neighbourhood := nb
      totalAppointments := grp.length
      noShowRate := (meanQ (grp.map (fun r => (r.noShowBinary : ℚ)))).map
        (fun x => x * 100) : NeighbourhoodStats })
  (List.insertionSort
    (fun a b : NeighbourhoodStats => b.totalAppointments ≤ a.totalAppointments)
    stats).take topN

/-- `create_neighborhood_analysis` with its default argument `top_n=15`
(app.py line 319). -/
def createNeighborhoodStatsDefault (df : List Record) : List NeighbourhoodStats :=
  createNeighborhoodStats df 15

/-- The filter reconciliation of the `update_charts` callback (app.py lines
652-664): the age-group and gender selectors apply only when not `"all"`, and
the waiting-days slider is an inclusive upper bound. -/
def updateChartsFilter (ageGroup gender : String) (maxWaitingDays : ℤ)
    (df : List Record) : List Record :=
  let d1 := if ageGroup = "all" then df
    else df.filter (fun r => decide (r.ageGroup = ageGroup))
  let d2 := if gender = "all" then d1
    else d1.filter (fun r => decide (r.gender = gender))
  d2.filter (fun r => decide (r.daysWaiting ≤ maxWaitingDays))

/-! Concrete sample data used by witnesses and counterexamples. -/

/-- A raw row with no missing cell; appointment on day 2 (a Wednesday under
the Monday epoch), scheduled on day 0, age 40, outcome `"Yes"` (a no-show). -/
def rawA : RawRecord :=
  { patientId := some 1, appointmentID := some 11, gender := some "F",
    scheduledDay := some 0, appointmentDay := some 2, age := some 40,
    neighbourhood := some "Centro", scholarship := some 0,
    hipertension := some 1, diabetes := some 0, alcoholism := some 0,
    handcap := some 0, smsReceived := some 1, noShow := some "Yes" }

/-- The cleaned row that `loadAndCleanData [rawA]` produces. -/
def recA : Record :=
  { patientId := 1, appointmentID := 11, gender := "F", scheduledDay := 0,
    appointmentDay := 2, age := 40, neighbourhood := "Centro",
    scholarship := 0, hipertension := 1, diabetes := 0, alcoholism := 0,
    handcap := 0, smsReceived := 1, noShow := "Yes", daysWaiting := 2,
    dayOfWeek := 2, dayOfWeekName := "Wednesday",
    ageGroup := "Middle-aged (36-55)", noShowBinary := 1 }

/-- A cleaned row in a given neighbourhood (all other fields fixed). -/
def mkNbRec (nb : String) : Record :=
  { patientId := 0, appointmentID := 0, gender := "F", scheduledDay := 0,
    appointmentDay := 0, age := 30, neighbourhood := nb, scholarship := 0,
    hipertension := 0, diabetes := 0, alcoholism := 0, handcap := 0,
    smsReceived := 0, noShow := "No", daysWaiting := 0, dayOfWeek := 0,
    dayOfWeekName := "Monday", ageGroup := "Young Adults (18-35)",
    noShowBinary := 0 }

/-- Three neighbourhoods with appointment volumes 50, 30 and 10. -/
def dfNb : List Record :=
  List.replicate 50 (mkNbRec "A") ++ List.replicate 30 (mkNbRec "B") ++
    List.replicate 10 (mkNbRec "C")

/-- A cleaned row with a given waiting time (all other fields fixed). -/
def mkWaitRec (w : ℤ) : Record :=
  { patientId := 0, appointmentID := 0, gender := "M", scheduledDay := 0,
    appointmentDay := w, age := 30, neighbourhood := "A", scholarship := 0,
    hipertension := 0, diabetes := 0, alcoholism := 0, handcap := 0,
    smsReceived := 0, noShow := "No", daysWaiting := w, dayOfWeek := w % 7,
    dayOfWeekName := dayNames (w % 7), ageGroup := "Young Adults (18-35)",
    noShowBinary := 0 }

/-- A one-row table with waiting time 0. -/
def dfWaitLow : List Record := [mkWaitRec 0]

/-- A one-row table with waiting time 10. -/
def dfWaitHigh : List Record := [mkWaitRec 10]

/-- A raw row whose appointment falls on day 9 (a Wednesday): a whole input
table made of such rows has day-of-week groups for Wednesday only. -/
def rawWed : RawRecord :=
  { patientId := some 2, appointmentID := some 22, gender := some "M",
    scheduledDay := some 9, appointmentDay := some 9, age := some 20,
    neighbourhood := some "A", scholarship := some 0, hipertension := some 0,
    diabetes := some 0, alcoholism := some 0, handcap := some 0,
    smsReceived := some 0, noShow := some "No" }

/-- A raw row whose appointment falls on day 0 (a Monday). -/
def rawMon : RawRecord :=
  { patientId := some 3, appointmentID := some 33, gender := some "F",
    scheduledDay := some 0, appointmentDay := some 0, age := some 10,
    neighbourhood := some "A", scholarship := some 0, hipertension := some 0,
    diabetes := some 0, alcoholism := some 0, handcap := some 0,
    smsReceived := some 0, noShow := some "No" }

/-- A raw row whose appointment falls on day 6 (a Sunday). -/
def rawSun : RawRecord :=
  { patientId := some 4, appointmentID := some 44, gender := some "F",
    scheduledDay := some 1, appointmentDay := some 6, age := some 70,
    neighbourhood := some "A", scholarship := some 0, hipertension := some 0,
    diabetes := some 0, alcoholism := some 0, handcap := some 0,
    smsReceived := some 0, noShow := some "Yes" }

/-! Helper lemmas about the cleaning pipeline and sorted lists. -/

/-- Inversion of `cleanRow`: a surviving row's derived fields are computed from
its base fields exactly as in app.py lines 39-56. -/
theorem cleanRow_spec {raw : RawRecord} {r : Record} (h : cleanRow raw = some r) :
    r.daysWaiting = r.appointmentDay - r.scheduledDay ∧
    r.dayOfWeek = r.appointmentDay % 7 ∧
    r.dayOfWeekName = dayNames (r.appointmentDay % 7) ∧
    r.noShowBinary = (if r.noShow = "Yes" then 1 else 0) ∧
    ageGroupOfAge r.age = some r.ageGroup := by
  obtain ⟨pid, e1, h⟩ := Option.bind_eq_some.mp h
  obtain ⟨aid, e2, h⟩ := Option.bind_eq_some.mp h
  obtain ⟨g, e3, h⟩ := Option.bind_eq_some.mp h
  obtain ⟨sd, e4, h⟩ := Option.bind_eq_some.mp h
  obtain ⟨ad, e5, h⟩ := Option.bind_eq_some.mp h
  obtain ⟨a, e6, h⟩ := Option.bind_eq_some.mp h
  obtain ⟨nb, e7, h⟩ := Option.bind_eq_some.mp h
  obtain ⟨sch, e8, h⟩ := Option.bind_eq_some.mp h
  obtain ⟨hyp, e9, h⟩ := Option.bind_eq_some.mp h
  obtain ⟨dia, e10, h⟩ := Option.bind_eq_some.mp h
  obtain ⟨alc, e11, h⟩ := Option.bind_eq_some.mp h
  obtain ⟨hc, e12, h⟩ := Option.bind_eq_some.mp h
  obtain ⟨sms, e13, h⟩ := Option.bind_eq_some.mp h
  obtain ⟨ns, e14, h⟩ := Option.bind_eq_some.mp h
  obtain ⟨ag, e15, h⟩ := Option.bind_eq_some.mp h
  injection h with h
  subst h
  exact ⟨rfl, rfl, rfl, rfl, e15⟩

/-- Membership in the cleaned table: the row comes from some raw row via
`cleanRow` and passes the two range filters. -/
theorem mem_loadAndCleanData {rows : List RawRecord} {r : Record}
    (h : r ∈ loadAndCleanData rows) :
    (∃ raw ∈ rows, cleanRow raw = some r) ∧
      0 ≤ r.daysWaiting ∧ 0 ≤ r.age ∧ r.age ≤ 120 := by
  simp only [loadAndCleanData, List.mem_filter, List.mem_filterMap,
    decide_eq_true_eq] at h
  tauto

/-- `firstOccur` has the same members as the original list. -/
theorem mem_firstOccur {y : String} {xs : List String} :
    y ∈ firstOccur xs ↔ y ∈ xs := by
  induction xs with
  | nil => simp [firstOccur]
  | cons x xs ih =>
    by_cases hyx : y = x
    · subst hyx; simp [firstOccur]
    · simp [firstOccur, List.mem_filter, hyx, ih]

/-- In a `Pairwise R` list, the head is related to every member (or is it). -/
theorem pairwise_head?_min {α : Type} {R : α → α → Prop} {l : List α}
    (hp : l.Pairwise R) {x : α} (hx : x ∈ l) :
    ∃ y, l.head? = some y ∧ y ∈ l ∧ (y = x ∨ R y x) := by
  cases l with
  | nil => cases hx
  | cons a t =>
    refine ⟨a, rfl, List.mem_cons_self a t, ?_⟩
    rcases List.mem_cons.mp hx with h | h
    · exact Or.inl h.symm
    · exact Or.inr ((List.pairwise_cons.mp hp).1 x h)

/-- In a `Pairwise R` list, every member is related to the last element
(or is it). -/
theorem pairwise_getLast?_max {α : Type} {R : α → α → Prop} {l : List α}
    (hp : l.Pairwise R) {x : α} (hx : x ∈ l) :
    ∃ y, l.getLast? = some y ∧ y ∈ l ∧ (y = x ∨ R x y) := by
  have hp2 : l.reverse.Pairwise (fun a b => R b a) :=
    List.pairwise_reverse.mpr hp
  obtain ⟨y, hy, hym, hyx⟩ :=
    pairwise_head?_min hp2 (List.mem_reverse.mpr hx)
  exact ⟨y, (List.head?_reverse l) ▸ hy, List.mem_reverse.mp hym, hyx⟩

/-- Only `"Monday"` sits at position 0 of the day categorical. -/
theorem dayIndexOf_eq_zero {d : String} (h : dayIndexOf d = 0) : d = "Monday" := by
  unfold dayIndexOf at h
  split_ifs at h with h1 h2 h3 h4 h5 h6 h7
  exact h1

/-- Only `"Sunday"` sits at position 6 of the day categorical. -/
theorem dayIndexOf_eq_six {d : String} (h : dayIndexOf d = 6) : d = "Sunday" := by
  unfold dayIndexOf at h
  split_ifs at h with h1 h2 h3 h4 h5 h6 h7
  all_goals first | exact h7 | omega

/-- Every value of `dayNames` is one of the seven categories. -/
theorem dayIndexOf_dayNames_le (w : ℤ) : dayIndexOf (dayNames w) ≤ 6 := by
  unfold dayNames
  split_ifs <;> decide

/-- The group key of a day-of-week aggregate row. -/
theorem dayGroupStats_dayOfWeek (df : List Record) (d : String) :
    (dayGroupStats df d).dayOfWeek = d := rfl

/-- Every day name appearing in a cleaned table is one of the seven
categories. -/
theorem cleaned_dayOfWeekName_le {rows : List RawRecord} {d : String}
    (h : d ∈ (loadAndCleanData rows).map (fun r => r.dayOfWeekName)) :
    dayIndexOf d ≤ 6 := by
  obtain ⟨r, hr, hd⟩ := List.mem_map.mp h
  obtain ⟨⟨raw, -, hraw⟩, -⟩ := mem_loadAndCleanData hr
  rw [← hd, (cleanRow_spec hraw).2.2.1]
  exact dayIndexOf_dayNames_le _

/-! The claims. -/

/-- C1: every row of the table returned by `load_and_clean_data` satisfies
`DaysWaiting ≥ 0` and `0 ≤ Age ≤ 120`; rows with a missing required cell, a
negative `DaysWaiting`, or an out-of-range `Age` are dropped by the cleaning
filters. -/
theorem cleaned_rows_satisfy_invariants (rows : List RawRecord) (r : Record)
    (h : r ∈ loadAndCleanData rows) :
    0 ≤ r.daysWaiting ∧ 0 ≤ r.age ∧ r.age ≤ 120 :=
  (mem_loadAndCleanData h).2

theorem cleaned_rows_satisfy_invariants_witness :
    0 ≤ recA.daysWaiting ∧ 0 ≤ recA.age ∧ recA.age ≤ 120 :=
  cleaned_rows_satisfy_invariants [rawA] recA (by decide)

/-- C2 counterexample: age 120 lies in [0,120] but `pd.cut` with `right=False`
puts it in no bucket (the last bin is the half-open `[56,120)`), so the
binning is not total on [0,120] and the claimed closed bucket `[56,120]` is
wrong at its right edge. -/
theorem age_group_not_total_at_120 :
    (0 : ℤ) ≤ 120 ∧ (120 : ℤ) ≤ 120 ∧ ageGroupOfAge 120 = none := by decide

/-- C2 (amended): the age-group binning is total and non-overlapping on the
half-open range [0,120): every such age maps to exactly one of the four
labels, with bucket boundaries [0,18), [18,36), [36,56), [56,120). -/
theorem age_group_total_on_Ico (a : ℤ) (h0 : 0 ≤ a) (h1 : a < 120) :
    (∃ l, ageGroupOfAge a = some l ∧ l ∈ ageLabels) ∧
    (ageGroupOfAge a = some "Children (0-17)" ↔ 0 ≤ a ∧ a < 18) ∧
    (ageGroupOfAge a = some "Young Adults (18-35)" ↔ 18 ≤ a ∧ a < 36) ∧
    (ageGroupOfAge a = some "Middle-aged (36-55)" ↔ 36 ≤ a ∧ a < 56) ∧
    (ageGroupOfAge a = some "Seniors (56+)" ↔ 56 ≤ a ∧ a < 120) := by
  unfold ageGroupOfAge ageLabels
  split_ifs with i1 i2 i3 i4
  case _ => refine ⟨⟨_, rfl, by simp⟩, ?_, ?_, ?_, ?_⟩ <;> simp <;> omega
  case _ => refine ⟨⟨_, rfl, by simp⟩, ?_, ?_, ?_, ?_⟩ <;> simp <;> omega
  case _ => refine ⟨⟨_, rfl, by simp⟩, ?_, ?_, ?_, ?_⟩ <;> simp <;> omega
  case _ => refine ⟨⟨_, rfl, by simp⟩, ?_, ?_, ?_, ?_⟩ <;> simp <;> omega
  case _ => exact absurd h1 (by omega)

theorem age_group_total_on_Ico_witness :
    (∃ l, ageGroupOfAge 70 = some l ∧ l ∈ ageLabels) ∧
    (ageGroupOfAge 70 = some "Children (0-17)" ↔ 0 ≤ (70 : ℤ) ∧ (70 : ℤ) < 18) ∧
    (ageGroupOfAge 70 = some "Young Adults (18-35)" ↔
      18 ≤ (70 : ℤ) ∧ (70 : ℤ) < 36) ∧
    (ageGroupOfAge 70 = some "Middle-aged (36-55)" ↔
      36 ≤ (70 : ℤ) ∧ (70 : ℤ) < 56) ∧
    (ageGroupOfAge 70 = some "Seniors (56+)" ↔ 56 ≤ (70 : ℤ) ∧ (70 : ℤ) < 120) :=
  age_group_total_on_Ico 70 (by decide) (by decide)

/-- C3: for every non-empty cleaned table, the show rate and no-show rate of
`calculate_summary_statistics` are defined and sum to exactly 100. -/
theorem summary_rates_sum_to_100 (df : List Record) (h : df ≠ []) :
    ∃ s n : ℚ, (calculateSummaryStatistics df).showRate = some s ∧
      (calculateSummaryStatistics df).noShowRate = some n ∧ s + n = 100 := by
  have hq : ((df.length : ℚ)) ≠ 0 :=
    Nat.cast_ne_zero.mpr (Nat.pos_iff_ne_zero.mp (List.length_pos.mpr h))
  simp only [calculateSummaryStatistics, npDiv, if_neg hq, Option.map_some']
  refine ⟨_, _, rfl, rfl, ?_⟩
  field_simp
  ring

theorem summary_rates_sum_to_100_witness :
    ∃ s n : ℚ, (calculateSummaryStatistics [recA]).showRate = some s ∧
      (calculateSummaryStatistics [recA]).noShowRate = some n ∧ s + n = 100 :=
  summary_rates_sum_to_100 [recA] (by simp)

/-- C4: in every cleaned row, `NoShow_Binary` is 1 exactly when the `No-show`
outcome column holds `"Yes"` (the label recording that the patient did not
show), and 0 otherwise. -/
theorem no_show_binary_one_iff_no_show (rows : List RawRecord) (r : Record)
    (h : r ∈ loadAndCleanData rows) :
    (r.noShowBinary = 1 ↔ r.noShow = "Yes") ∧
    (r.noShowBinary = 0 ↔ r.noShow ≠ "Yes") := by
  obtain ⟨⟨raw, -, hraw⟩, -⟩ := mem_loadAndCleanData h
  have hb := (cleanRow_spec hraw).2.2.2.1
  by_cases hy : r.noShow = "Yes" <;> simp [hy] at hb <;> simp [hy, hb]

theorem no_show_binary_one_iff_no_show_witness :
    (recA.noShowBinary = 1 ↔ recA.noShow = "Yes") ∧
    (recA.noShowBinary = 0 ↔ recA.noShow ≠ "Yes") :=
  no_show_binary_one_iff_no_show [rawA] recA (by decide)

/-- C5 counterexample: an input table whose only appointment falls on a
Wednesday produces a day-of-week aggregation whose sorted output does not
begin with Monday (nor end with Sunday): `groupby` creates groups only for
day names present in the data, so the claimed endpoints fail for such
tables. -/
theorem day_of_week_endpoints_counterexample :
    ¬ ((createDayOfWeekStats (loadAndCleanData [rawWed])).head?.map
          (fun s => s.dayOfWeek) = some "Monday" ∧
        (createDayOfWeekStats (loadAndCleanData [rawWed])).getLast?.map
          (fun s => s.dayOfWeek) = some "Sunday") := by decide

/-- C5 (amended): for every input table — regardless of its row order — whose
cleaned rows include at least one Monday appointment and at least one Sunday
appointment, the day-of-week aggregation output, after the explicitly applied
canonical Monday→Sunday categorical sort, begins with Monday and ends with
Sunday. -/
theorem day_of_week_sorted_endpoints (rows : List RawRecord)
    (hm : "Monday" ∈ (loadAndCleanData rows).map (fun r => r.dayOfWeekName))
    (hs : "Sunday" ∈ (loadAndCleanData rows).map (fun r => r.dayOfWeekName)) :
    (createDayOfWeekStats (loadAndCleanData rows)).head?.map
        (fun s => s.dayOfWeek) = some "Monday" ∧
      (createDayOfWeekStats (loadAndCleanData rows)).getLast?.map
        (fun s => s.dayOfWeek) = some "Sunday" := by
  haveI : IsTotal DayStats
      (fun a b => dayIndexOf a.dayOfWeek ≤ dayIndexOf b.dayOfWeek) :=
    ⟨fun a b => Nat.le_total _ _⟩
  haveI : IsTrans DayStats
      (fun a b => dayIndexOf a.dayOfWeek ≤ dayIndexOf b.dayOfWeek) :=
    ⟨fun a b c hab hbc => Nat.le_trans hab hbc⟩
  have hp : (createDayOfWeekStats (loadAndCleanData rows)).Pairwise
      (fun a b => dayIndexOf a.dayOfWeek ≤ dayIndexOf b.dayOfWeek) :=
    List.sorted_insertionSort _ _
  have hperm : ∀ s : DayStats,
      s ∈ createDayOfWeekStats (loadAndCleanData rows) ↔
        s ∈ (firstOccur ((loadAndCleanData rows).map
            (fun r => r.dayOfWeekName))).map
          (dayGroupStats (loadAndCleanData rows)) :=
    fun s => (List.perm_insertionSort _ _).mem_iff
  have hmonMem : dayGroupStats (loadAndCleanData rows) "Monday" ∈
      createDayOfWeekStats (loadAndCleanData rows) :=
    (hperm _).mpr (List.mem_map_of_mem _ (mem_firstOccur.mpr hm))
  have hsunMem : dayGroupStats (loadAndCleanData rows) "Sunday" ∈
      createDayOfWeekStats (loadAndCleanData rows) :=
    (hperm _).mpr (List.mem_map_of_mem _ (mem_firstOccur.mpr hs))
  constructor
  · obtain ⟨y, hy, -, hcase⟩ := pairwise_head?_min hp hmonMem
    have hyMon : y.dayOfWeek = "Monday" := by
      rcases hcase with rfl | hle
      · rfl
      · exact dayIndexOf_eq_zero (Nat.le_zero.mp hle)
    rw [hy, Option.map_some', hyMon]
  · obtain ⟨z, hz, hzm, hcase⟩ := pairwise_getLast?_max hp hsunMem
    have hzSun : z.dayOfWeek = "Sunday" := by
      rcases hcase with rfl | hle
      · rfl
      · have hz6 : dayIndexOf z.dayOfWeek ≤ 6 := by
          obtain ⟨d, hd, hzd⟩ := List.mem_map.mp ((hperm z).mp hzm)
          rw [← hzd, dayGroupStats_dayOfWeek]
          exact cleaned_dayOfWeekName_le (mem_firstOccur.mp hd)
        exact dayIndexOf_eq_six (Nat.le_antisymm hz6 hle)
    rw [hz, Option.map_some', hzSun]

theorem day_of_week_sorted_endpoints_witness :
    (createDayOfWeekStats (loadAndCleanData [rawSun, rawWed, rawMon])).head?.map
        (fun s => s.dayOfWeek) = some "Monday" ∧
      (createDayOfWeekStats
          (loadAndCleanData [rawSun, rawWed, rawMon])).getLast?.map
        (fun s => s.dayOfWeek) = some "Sunday" :=
  day_of_week_sorted_endpoints [rawSun, rawWed, rawMon] (by decide) (by decide)

/-- C6: the callback's filter reconciliation applies the age-group and gender
selectors only when their value is not `"all"` and the waiting-days threshold
as an inclusive upper bound; with both selectors `"all"` and a threshold at
least the table's maximum `DaysWaiting`, the filtered view equals the full
cleaned table. -/
theorem update_charts_filter_spec (df : List Record) (m : ℤ) (a g : String)
    (m2 : ℤ) (r : Record) (hmax : ∀ x ∈ df, x.daysWaiting ≤ m) :
    updateChartsFilter "all" "all" m df = df ∧
      (r ∈ updateChartsFilter a g m2 df ↔
        r ∈ df ∧ (a = "all" ∨ r.ageGroup = a) ∧ (g = "all" ∨ r.gender = g) ∧
          r.daysWaiting ≤ m2) := by
  constructor
  · simp only [updateChartsFilter, eq_self_iff_true, if_true]
    exact List.filter_eq_self.mpr (fun x hx => by simpa using hmax x hx)
  · simp only [updateChartsFilter]
    split_ifs <;> simp_all [List.mem_filter] <;> tauto

theorem update_charts_filter_spec_witness :
    updateChartsFilter "all" "all" 5 [recA] = [recA] ∧
      (recA ∈ updateChartsFilter "all" "all" 5 [recA] ↔
        recA ∈ [recA] ∧ ("all" = "all" ∨ recA.ageGroup = "all") ∧
          ("all" = "all" ∨ recA.gender = "all") ∧ recA.daysWaiting ≤ 5) :=
  update_charts_filter_spec [recA] 5 "all" "all" 5 recA (by decide)

/-- C7: the neighbourhood aggregation keeps only the top-N neighbourhoods
ranked by appointment volume (its default is N = 15); with `top_n = 2` on
three neighbourhoods with volumes 50, 30, 10 it returns exactly the two
highest-volume neighbourhoods, in descending volume order. -/
theorem neighborhood_top_n_spec :
    (createNeighborhoodStats dfNb 2).map
        (fun s => (s.neighbourhood, s.totalAppointments)) =
      [("A", 50), ("B", 30)] ∧
      (∀ (df : List Record) (n : ℕ),
        (createNeighborhoodStats df n).length ≤ n) ∧
      ∀ df : List Record,
        createNeighborhoodStatsDefault df = createNeighborhoodStats df 15 := by
  refine ⟨by decide, fun df n => ?_, fun df => rfl⟩
  exact List.length_take_le _ _

/-- The linear-interpolation quantile of a one-element series is its value. -/
theorem quantileLinear_singleton (q v : ℚ) : quantileLinear q [v] = some v := by
  unfold quantileLinear
  norm_num [List.insertionSort, List.orderedInsert]

/-- The 95th-percentile threshold of the one-row table with waiting time 0. -/
theorem q95_dfWaitLow : daysWaitingQuantile95 dfWaitLow = some 0 := by
  have h := quantileLinear_singleton (19 / 20) ((0 : ℤ) : ℚ)
  simpa [daysWaitingQuantile95, dfWaitLow, mkWaitRec] using h

/-- The 95th-percentile threshold of the one-row table with waiting time 10. -/
theorem q95_dfWaitHigh : daysWaitingQuantile95 dfWaitHigh = some 10 := by
  have h := quantileLinear_singleton (19 / 20) ((10 : ℤ) : ℚ)
  simpa [daysWaitingQuantile95, dfWaitHigh, mkWaitRec] using h

/-- C8: every row kept by the waiting-time histogram's restriction has
`DaysWaiting` at most the 95th percentile of the table passed in at call
time; and the threshold genuinely depends on that input table (two one-row
inputs give two different thresholds), so it is not a fixed constant. -/
theorem waiting_time_within_quantile (df : List Record) (r : Record)
    (h : r ∈ createWaitingTimeInput df) :
    (daysWaitingQuantile95 df).isSome = true ∧
      (r.daysWaiting : ℚ) ≤ (daysWaitingQuantile95 df).getD 0 ∧
      daysWaitingQuantile95 dfWaitLow ≠ daysWaitingQuantile95 dfWaitHigh := by
  have hsens : daysWaitingQuantile95 dfWaitLow ≠ daysWaitingQuantile95 dfWaitHigh := by
    rw [q95_dfWaitLow, q95_dfWaitHigh]
    simp
  cases hq : daysWaitingQuantile95 df with
  | none => simp [createWaitingTimeInput, hq] at h
  | some q =>
    simp only [createWaitingTimeInput, hq, List.mem_filter,
      decide_eq_true_eq] at h
    exact ⟨by simp [hq], by simpa [hq] using h.2, hsens⟩

theorem waiting_time_within_quantile_witness :
    (daysWaitingQuantile95 dfWaitLow).isSome = true ∧
      ((mkWaitRec 0).daysWaiting : ℚ) ≤ (daysWaitingQuantile95 dfWaitLow).getD 0 ∧
      daysWaitingQuantile95 dfWaitLow ≠ daysWaitingQuantile95 dfWaitHigh :=
  waiting_time_within_quantile dfWaitLow (mkWaitRec 0) (by
    have h := q95_dfWaitLow
    simp only [createWaitingTimeInput, h]
    simp [dfWaitLow, mkWaitRec])

/-- C9: in the medical-conditions aggregation, a group with zero rows (no
patient with, for flag value 1, or no patient without, for flag value 0, the
condition) yields an undefined NaN rate (`none`) — in particular not 0%. -/
theorem condition_empty_group_rate_nan (df : List Record) (c : String) (v : ℤ)
    (hv : v = 1 ∨ v = 0)
    (h : df.filter (fun r => decide (conditionValue c r = v)) = []) :
    (if v = 1 then withConditionRate df c else withoutConditionRate df c)
        = none ∧
      (if v = 1 then withConditionRate df c else withoutConditionRate df c)
        ≠ some 0 := by
  rcases hv with rfl | rfl
  · simp [withConditionRate, h, meanQ]
  · simp [withoutConditionRate, h, meanQ]

theorem condition_empty_group_rate_nan_witness :
    (if (1 : ℤ) = 1 then withConditionRate [recA] "Diabetes"
        else withoutConditionRate [recA] "Diabetes") = none ∧
      (if (1 : ℤ) = 1 then withConditionRate [recA] "Diabetes"
          else withoutConditionRate [recA] "Diabetes") ≠ some 0 :=
  condition_empty_group_rate_nan [recA] "Diabetes" 1 (Or.inl rfl) (by decide)

/-- C10 counterexample: `calculate_summary_statistics` applied to the empty
table does not raise an error: the 0/0 divisions are numpy scalar divisions
that produce NaN (with a runtime warning), so the function returns a summary
record with count 0 and undefined (NaN) rates. -/
theorem summary_statistics_empty_counterexample :
    calculateSummaryStatistics [] =
      { totalAppointments := 0, showRate := none, noShowRate := none,
        avgAge := none, avgWaitingDays := none, genderCounts := [],
        conditionStats := [("Hipertension", none), ("Diabetes", none),
          ("Alcoholism", none)] } := by
  simp [calculateSummaryStatistics, npDiv, meanQ, valueCounts, firstOccur,
    summaryConditions, List.insertionSort]

/-- C10 (amended): `calculate_summary_statistics` is total but degenerate on
the empty table: `total_appointments = 0` drives the rate computations into
division by zero, which numpy maps to NaN, so the returned record has
undefined rates rather than percentages; the rates are defined exactly for
non-empty input. -/
theorem summary_statistics_empty_degenerate (df : List Record) (h : df ≠ []) :
    (calculateSummaryStatistics []).totalAppointments = 0 ∧
      (calculateSummaryStatistics []).showRate = none ∧
      (calculateSummaryStatistics []).noShowRate = none ∧
      (calculateSummaryStatistics df).showRate.isSome = true ∧
      (calculateSummaryStatistics df).noShowRate.isSome = true := by
  have hq : ((df.length : ℚ)) ≠ 0 :=
    Nat.cast_ne_zero.mpr (Nat.pos_iff_ne_zero.mp (List.length_pos.mpr h))
  refine ⟨rfl, ?_, ?_, ?_, ?_⟩
  · simp [calculateSummaryStatistics, npDiv]
  · simp [calculateSummaryStatistics, npDiv]
  · simp [calculateSummaryStatistics, npDiv, if_neg hq, h]
  · simp [calculateSummaryStatistics, npDiv, if_neg hq, h]

theorem summary_statistics_empty_degenerate_witness :
    (calculateSummaryStatistics []).totalAppointments = 0 ∧
      (calculateSummaryStatistics []).showRate = none ∧
      (calculateSummaryStatistics []).noShowRate = none ∧
      (calculateSummaryStatistics [recA]).showRate.isSome = true ∧
      (calculateSummaryStatistics [recA]).noShowRate.isSome = true :=
  summary_statistics_empty_degenerate [recA] (by simp)
